import Mathlib

/-!
Verification of the CFO Helper backend (src/Backend/main.py).

Numeric model: Python integers are embedded as `Int` (unbounded), and the
float arithmetic of the financial computation as exact rationals `ℚ`
(the spec states "No rounding is applied internally; output fields retain
full numeric precision", so the exact-arithmetic contract is the object of
verification; IEEE-754 rounding is abstracted away).  Mutable process
state (the two module-level counters) is embedded as explicit state
passing on an `AppState` record.  The external generative-language call is
embedded as a function parameter `llm : String → Except String String`:
`Except.error` is a raised exception of the underlying client,
`Except.ok t` a response whose `.text` is `t`.
-/

/-- The `ScenarioInput` pydantic model, main.py lines 27-35: the eight
declared required fields.  Python `int` is unbounded, hence `Int`;
`pricing_adjustment` is declared `float` and embedded as `ℚ`. -/
structure ScenarioInput where
  initial_budget : Int
  time_horizon : Int
  sales_volume : Int
  avg_price_per_unit : Int
  staff_count : Int
  marketing_spend : Int
  operational_expenses : Int
  pricing_adjustment : ℚ
deriving DecidableEq

/-- Modelled from the spec: the computation in main.py line 44 reads
`data.average_salary`, a per-staff salary figure that `ScenarioInput`
(lines 27-35) never declares.  Spec §3 ("this field must be part of the
input contract (an implementer must add it)") and §9 direct that it be a
required input field, so the completed input is the declared model
extended with that one field. -/
structure ScenarioInputFull extends ScenarioInput where
  average_salary : Int
deriving DecidableEq

/-- The dict returned by `calculate_financial_outcome`, main.py lines
57-64.  `runway_months` is `None` (here `Option.none`) unless the guard
on line 52 holds. -/
structure FinancialOutcome where
  monthly_net_flow : ℚ
  runway_months : Option ℚ
  projected_balance_after_horizon : ℚ
  monthly_revenue : ℚ
  total_monthly_costs : ℚ
  salary_costs : ℚ
deriving DecidableEq

/-- Embedding of `calculate_financial_outcome`, main.py lines 37-64, on the completed
input (declared fields plus `average_salary`, the field the body
actually reads on line 44). -/
def calculate_financial_outcome (data : ScenarioInputFull) : FinancialOutcome :=
  let adjusted_price : ℚ := (data.avg_price_per_unit : ℚ) * (1 + data.pricing_adjustment / 100)
  let monthly_revenue : ℚ := (data.sales_volume : ℚ) * adjusted_price
  let salary_costs : ℚ := (data.staff_count : ℚ) * (data.average_salary : ℚ)
  let total_monthly_costs : ℚ := (data.operational_expenses : ℚ) + (data.marketing_spend : ℚ) + salary_costs
  let monthly_net_flow : ℚ := monthly_revenue - total_monthly_costs
  let runway_months : Option ℚ :=
    if monthly_net_flow < 0 ∧ data.initial_budget > 0 then
      some ((data.initial_budget : ℚ) / |monthly_net_flow|)
    else none
  let projected_balance : ℚ := (data.initial_budget : ℚ) + monthly_net_flow * (data.time_horizon : ℚ)
  { monthly_net_flow := monthly_net_flow
    runway_months := runway_months
    projected_balance_after_horizon := projected_balance
    monthly_revenue := monthly_revenue
    total_monthly_costs := total_monthly_costs
    salary_costs := salary_costs }

/-- Attribute lookup `data.average_salary` on the declared model, main.py
line 44: `ScenarioInput` declares no `average_salary` field, so in Python
this access raises `AttributeError` for every instance. -/
def ScenarioInput.lookup_average_salary (_ : ScenarioInput) : Except String Int :=
  Except.error "AttributeError: 'ScenarioInput' object has no attribute 'average_salary'"

/-- Embedding of `calculate_financial_outcome` as it actually executes on the declared
`ScenarioInput` model, main.py lines 37-64: lines 40-41 succeed, line 44
performs the failing attribute lookup, and the raised `AttributeError`
propagates; were the lookup to return a value, the rest of the body is
`calculate_financial_outcome` on the completed input. -/
def calculate_financial_outcome_run (data : ScenarioInput) : Except String FinancialOutcome := do
  let s ← data.lookup_average_salary
  pure (calculate_financial_outcome { data with average_salary := s })

/-- Renders a numeric amount into prompt text.  Abstracts Python's
f-string numeric formatting (the comma-grouped `:,` form and the
one-decimal `:.1f` form) as the canonical decimal/fraction rendering of
the exact rational; every property proved about the generated text below
depends only on the surrounding wording, not on the digit rendering. -/
def formatAmount (q : ℚ) : String := toString q

/-- The runway display text of main.py line 69: the formatted number of
months when `runway_months` is present, the fixed marker otherwise. -/
def runway_text (math_result : FinancialOutcome) : String :=
  match math_result.runway_months with
  | some r => formatAmount r ++ " months"
  | none => "N/A (profitable or no initial budget)"

/-- The structured prompt built by `get_llm_summary`, main.py lines
71-87. -/
def long_prompt (math_result : FinancialOutcome) : String :=
  "\n    You are an expert CFO assistant analyzing a business scenario.\n\n    **Financial Forecast:**\n    - Monthly Net Cash Flow: ₹"
    ++ formatAmount math_result.monthly_net_flow
    ++ "\n    - Projected Balance after Time Horizon: ₹"
    ++ formatAmount math_result.projected_balance_after_horizon
    ++ "\n    - Calculated Runway: "
    ++ runway_text math_result
    ++ "\n    - Key Drivers:\n      - Monthly Revenue: ₹"
    ++ formatAmount math_result.monthly_revenue
    ++ "\n      - Monthly Costs: ₹"
    ++ formatAmount math_result.total_monthly_costs
    ++ "\n\n    **Your Task:**\n    Provide a clear, structured analysis:\n    1.  **Summary:** A one-sentence summary of the financial outlook.\n    2.  **Key Insight:** Identify the single biggest factor (e.g., high costs, strong revenue) driving this forecast.\n    3.  **Recommendation:** Suggest one actionable step to improve the financial position.\n    "

/-- Embedding of `get_llm_summary`, main.py lines 66-95: build the structured prompt,
call the external model, return its text stripped of surrounding
whitespace; on any exception from the call, return the fixed fallback
string of line 95. -/
def get_llm_summary (llm : String → Except String String) (math_result : FinancialOutcome) : String :=
  match llm (long_prompt math_result) with
  | Except.ok t => t.trim
  | Except.error _ => "Could not generate an AI summary for this scenario."

/-- The profit/loss phrase of main.py line 99: classified by
`outcome >= 0`, so an exactly-zero net flow is written as a profit. -/
def outcome_text (outcome : ℚ) : String :=
  if outcome ≥ 0 then "a monthly profit of ₹" ++ formatAmount outcome
  else "a monthly loss of ₹" ++ formatAmount |outcome|

/-- The headline prompt template of main.py lines 101-105, as a function
of the interpolated profit/loss phrase. -/
def short_prompt_of (t : String) : String :=
  "\n    You are a financial analyst summarizing a business scenario for a report headline.\n    The result was "
    ++ t
    ++ ".\n    Summarize this in a single, concise, tweet-style sentence (under 20 words).\n    "

/-- The headline prompt built by `get_short_llm_summary`, main.py lines
101-105. -/
def short_prompt (math_result : FinancialOutcome) : String :=
  short_prompt_of (outcome_text math_result.monthly_net_flow)

/-- Embedding of `get_short_llm_summary`, main.py lines 97-113: build the headline
prompt, call the external model, return its text stripped; on any
exception, return the locally constructed fallback sentence of
line 113. -/
def get_short_llm_summary (llm : String → Except String String) (math_result : FinancialOutcome) : String :=
  match llm (short_prompt math_result) with
  | Except.ok t => t.trim
  | Except.error _ => "Scenario resulted in " ++ outcome_text math_result.monthly_net_flow ++ "."

/-- The mutable process state of main.py lines 17-18: the two
module-level counters, both 0 at process start. -/
structure AppState where
  scenario_counter : Nat
  report_counter : Nat
deriving DecidableEq

/-- The response dict of `stimulate_scenario`, main.py lines 129-133. -/
structure StimulateResponse where
  summary : String
  data : FinancialOutcome
  scenario_count : Nat
deriving DecidableEq

/-- The response dict of `export_report`, main.py lines 143-147. -/
structure ExportResponse where
  message : String
  short_summary : String
  report_count : Nat
deriving DecidableEq

/-- The `POST /stimulate` handler `stimulate_scenario`, main.py lines
121-133: it increments `scenario_counter` first (line 124), then computes
the outcome (line 126) — an exception there propagates out of the handler
after the increment — then obtains the long summary and returns the
response dict. -/
def stimulate_scenario (llm : String → Except String String) (st : AppState)
    (data : ScenarioInput) : AppState × Except String StimulateResponse :=
  let st1 : AppState := { st with scenario_counter := st.scenario_counter + 1 }
  match calculate_financial_outcome_run data with
  | Except.error e => (st1, Except.error e)
  | Except.ok math_result =>
      (st1, Except.ok { summary := get_llm_summary llm math_result
                        data := math_result
                        scenario_count := st1.scenario_counter })

/-- The `POST /export-report` handler `export_report`, main.py lines
135-147: it increments `report_counter` first (line 138), then computes
the outcome (line 140) — an exception there propagates after the
increment — then obtains the short summary and returns the response
dict. -/
def export_report (llm : String → Except String String) (st : AppState)
    (data : ScenarioInput) : AppState × Except String ExportResponse :=
  let st1 : AppState := { st with report_counter := st.report_counter + 1 }
  match calculate_financial_outcome_run data with
  | Except.error e => (st1, Except.error e)
  | Except.ok math_result =>
      (st1, Except.ok { message := "Report export simulated successfully!"
                        short_summary := get_short_llm_summary llm math_result
                        report_count := st1.report_counter })

/-- Iterated calls to the `/stimulate` handler, one per input in the
list, threading the process state. -/
def run_stimulate (llm : String → Except String String) (st : AppState) :
    List ScenarioInput → AppState
  | [] => st
  | d :: ds => run_stimulate llm (stimulate_scenario llm st d).1 ds

/-- Iterated calls to the `/export-report` handler, threading the
process state. -/
def run_export (llm : String → Except String String) (st : AppState) :
    List ScenarioInput → AppState
  | [] => st
  | d :: ds => run_export llm (export_report llm st d).1 ds

/-- Helper: the `runway_months` field of the result is exactly the
guarded quotient of main.py lines 51-53. -/
theorem runway_months_eq (d : ScenarioInputFull) :
    (calculate_financial_outcome d).runway_months =
      if (calculate_financial_outcome d).monthly_net_flow < 0 ∧ 0 < d.initial_budget then
        some ((d.initial_budget : ℚ) / |(calculate_financial_outcome d).monthly_net_flow|)
      else none := rfl

/-- C1: the claim states that `calculate_financial_outcome` always
succeeds on a well-typed `ScenarioInput` carrying the eight declared
fields.  In fact line 44 reads the undeclared attribute `average_salary`,
so the execution raises `AttributeError` on every such input and never
returns an outcome: the code contradicts the claim (and the spec flags
this very defect in §9). -/
theorem calculate_on_declared_input_always_raises (d : ScenarioInput) :
    calculate_financial_outcome_run d =
      Except.error "AttributeError: 'ScenarioInput' object has no attribute 'average_salary'" := rfl

/-- C2: `runway_months` is present iff `monthly_net_flow < 0` and
`initial_budget > 0`, and when present it equals
`initial_budget / |monthly_net_flow|`; in every other case it is `none`
(the model's absent value — not zero, and not an infinity, which `ℚ` does
not contain). -/
theorem runway_presence (d : ScenarioInputFull) :
    ((calculate_financial_outcome d).runway_months.isSome ↔
      ((calculate_financial_outcome d).monthly_net_flow < 0 ∧ 0 < d.initial_budget)) ∧
    (calculate_financial_outcome d).runway_months =
      (if (calculate_financial_outcome d).monthly_net_flow < 0 ∧ 0 < d.initial_budget then
        some ((d.initial_budget : ℚ) / |(calculate_financial_outcome d).monthly_net_flow|)
      else none) := by
  refine ⟨?_, runway_months_eq d⟩
  rw [runway_months_eq d]
  split_ifs with h
  · simpa using h
  · simpa using h

/-- C3: the arithmetic contract of the outcome fields, main.py lines
40-55: revenue from adjusted price, salary costs, total costs, net flow,
and a projected balance that is affine in `time_horizon` with slope
`monthly_net_flow` (itself independent of the horizon) and intercept
`initial_budget`. -/
theorem arithmetic_contract (d : ScenarioInputFull) :
    (calculate_financial_outcome d).monthly_revenue
        = (d.sales_volume : ℚ) * ((d.avg_price_per_unit : ℚ) * (1 + d.pricing_adjustment / 100)) ∧
    (calculate_financial_outcome d).salary_costs
        = (d.staff_count : ℚ) * (d.average_salary : ℚ) ∧
    (calculate_financial_outcome d).total_monthly_costs
        = (d.operational_expenses : ℚ) + (d.marketing_spend : ℚ)
            + (calculate_financial_outcome d).salary_costs ∧
    (calculate_financial_outcome d).monthly_net_flow
        = (calculate_financial_outcome d).monthly_revenue
            - (calculate_financial_outcome d).total_monthly_costs ∧
    ∀ t : ℤ,
      (calculate_financial_outcome { d with time_horizon := t }).monthly_net_flow
          = (calculate_financial_outcome d).monthly_net_flow ∧
      (calculate_financial_outcome { d with time_horizon := t }).projected_balance_after_horizon
          = (d.initial_budget : ℚ) + (calculate_financial_outcome d).monthly_net_flow * (t : ℚ) :=
  ⟨rfl, rfl, rfl, rfl, fun _ => ⟨rfl, rfl⟩⟩

/-- C4: when the external text-generation call fails for any reason,
neither summary operation propagates the failure: `get_llm_summary`
returns the fixed fallback string of main.py line 95 and
`get_short_llm_summary` returns the locally constructed non-empty
profit/loss sentence of line 113, so the numeric outcome can still be
served. -/
theorem fallback_guarantee (llm : String → Except String String) (o : FinancialOutcome)
    (hfail : ∀ p t, llm p ≠ Except.ok t) :
    get_llm_summary llm o = "Could not generate an AI summary for this scenario." ∧
    get_short_llm_summary llm o = "Scenario resulted in " ++ outcome_text o.monthly_net_flow ++ "." ∧
    (get_short_llm_summary llm o).length ≠ 0 := by
  have h1 : get_llm_summary llm o = "Could not generate an AI summary for this scenario." := by
    unfold get_llm_summary
    cases hl : llm (long_prompt o) with
    | ok t => exact absurd hl (hfail _ t)
    | error e => rfl
  have h2 : get_short_llm_summary llm o
      = "Scenario resulted in " ++ outcome_text o.monthly_net_flow ++ "." := by
    unfold get_short_llm_summary
    cases hl : llm (short_prompt o) with
    | ok t => exact absurd hl (hfail _ t)
    | error e => rfl
  refine ⟨h1, h2, ?_⟩
  rw [h2, String.length_append, String.length_append]
  have hpre : ("Scenario resulted in ").length = 21 := rfl
  have hdot : (".").length = 1 := rfl
  rw [hpre, hdot]
  omega

/-- C4 witness: the fallback guarantee at a concrete always-failing
external call and a concrete outcome. -/
theorem fallback_guarantee_witness :
    get_llm_summary (fun _ => Except.error "503 Service Unavailable") ⟨0, none, 0, 0, 0, 0⟩
        = "Could not generate an AI summary for this scenario." ∧
    get_short_llm_summary (fun _ => Except.error "503 Service Unavailable") ⟨0, none, 0, 0, 0, 0⟩
        = "Scenario resulted in " ++ outcome_text (0 : ℚ) ++ "." ∧
    (get_short_llm_summary (fun _ => Except.error "503 Service Unavailable")
        ⟨0, none, 0, 0, 0, 0⟩).length ≠ 0 :=
  fallback_guarantee (fun _ => Except.error "503 Service Unavailable") ⟨0, none, 0, 0, 0, 0⟩
    (fun _ _ h => Except.noConfusion h)

/-- C6: the outcome computation is deterministic — two inputs that agree
on all nine numeric fields produce identical outcomes.  Purity holds by
construction of the embedding: `calculate_financial_outcome` takes no
process state and performs no effect. -/
theorem compute_deterministic (d₁ d₂ : ScenarioInputFull)
    (h : d₁.initial_budget = d₂.initial_budget ∧ d₁.time_horizon = d₂.time_horizon ∧
      d₁.sales_volume = d₂.sales_volume ∧ d₁.avg_price_per_unit = d₂.avg_price_per_unit ∧
      d₁.staff_count = d₂.staff_count ∧ d₁.marketing_spend = d₂.marketing_spend ∧
      d₁.operational_expenses = d₂.operational_expenses ∧
      d₁.pricing_adjustment = d₂.pricing_adjustment ∧
      d₁.average_salary = d₂.average_salary) :
    calculate_financial_outcome d₁ = calculate_financial_outcome d₂ := by
  obtain ⟨h1, h2, h3, h4, h5, h6, h7, h8, h9⟩ := h
  have hd : d₁ = d₂ := by
    obtain ⟨⟨a1, a2, a3, a4, a5, a6, a7, a8⟩, a9⟩ := d₁
    obtain ⟨⟨b1, b2, b3, b4, b5, b6, b7, b8⟩, b9⟩ := d₂
    simp_all
  rw [hd]

/-- C6 witness: determinism at a concrete pair of field-wise equal
inputs (the worked example of spec §8). -/
theorem compute_deterministic_witness :
    calculate_financial_outcome ⟨⟨100000, 12, 500, 50, 5, 2000, 3000, 0⟩, 4000⟩
      = calculate_financial_outcome ⟨⟨100000, 12, 500, 50, 5, 2000, 3000, 0⟩, 4000⟩ :=
  compute_deterministic ⟨⟨100000, 12, 500, 50, 5, 2000, 3000, 0⟩, 4000⟩
    ⟨⟨100000, 12, 500, 50, 5, 2000, 3000, 0⟩, 4000⟩
    ⟨rfl, rfl, rfl, rfl, rfl, rfl, rfl, rfl, rfl⟩

/-- C7: with positive sales volume and positive base unit price,
`monthly_revenue` is strictly increasing in `pricing_adjustment`, all
other fields held fixed (main.py lines 40-41). -/
theorem pricing_monotone (d : ScenarioInputFull) (p₁ p₂ : ℚ)
    (hv : 0 < d.sales_volume) (hp : 0 < d.avg_price_per_unit) (hlt : p₁ < p₂) :
    (calculate_financial_outcome { d with pricing_adjustment := p₁ }).monthly_revenue <
      (calculate_financial_outcome { d with pricing_adjustment := p₂ }).monthly_revenue := by
  have hv' : (0 : ℚ) < (d.sales_volume : ℚ) := by exact_mod_cast hv
  have hp' : (0 : ℚ) < (d.avg_price_per_unit : ℚ) := by exact_mod_cast hp
  show (d.sales_volume : ℚ) * ((d.avg_price_per_unit : ℚ) * (1 + p₁ / 100)) <
      (d.sales_volume : ℚ) * ((d.avg_price_per_unit : ℚ) * (1 + p₂ / 100))
  have hvp : (0 : ℚ) < (d.sales_volume : ℚ) * (d.avg_price_per_unit : ℚ) := mul_pos hv' hp'
  nlinarith [hvp, hlt]

/-- C7 witness: strict revenue increase at a concrete input when the
adjustment rises from 0% to 10%. -/
theorem pricing_monotone_witness :
    (calculate_financial_outcome ⟨⟨0, 0, 500, 50, 0, 0, 0, 0⟩, 0⟩).monthly_revenue <
      (calculate_financial_outcome ⟨⟨0, 0, 500, 50, 0, 0, 0, 10⟩, 0⟩).monthly_revenue :=
  pricing_monotone ⟨⟨0, 0, 500, 50, 0, 0, 0, 0⟩, 0⟩ 0 10
    (by decide) (by decide) (by norm_num)

/-- C9: an outcome whose `monthly_net_flow` is exactly 0 is classified as
a profit by `get_short_llm_summary` (main.py line 99 tests
`outcome >= 0`, not a strict sign): the profit/loss phrase and the
headline prompt both read "a monthly profit of ₹0" — never a loss — and
on a failed external call the fallback sentence does too. -/
theorem zero_net_flow_classified_profit (o : FinancialOutcome)
    (llm : String → Except String String) (h : o.monthly_net_flow = 0)
    (hfail : ∀ p t, llm p ≠ Except.ok t) :
    outcome_text o.monthly_net_flow = "a monthly profit of ₹0" ∧
    short_prompt o = short_prompt_of "a monthly profit of ₹0" ∧
    get_short_llm_summary llm o = "Scenario resulted in a monthly profit of ₹0." := by
  have ht : outcome_text o.monthly_net_flow = "a monthly profit of ₹0" := by
    rw [h]; rfl
  refine ⟨ht, ?_, ?_⟩
  · unfold short_prompt
    rw [ht]
  · unfold get_short_llm_summary
    cases hl : llm (short_prompt o) with
    | ok t => exact absurd hl (hfail _ t)
    | error e =>
        rw [ht]
        rfl

/-- C9 witness: the zero-net-flow classification at the worked outcome of
spec §8 (net flow 0, runway absent) and a concrete failing external
call. -/
theorem zero_net_flow_classified_profit_witness :
    outcome_text (FinancialOutcome.mk 0 none 100000 25000 25000 20000).monthly_net_flow
        = "a monthly profit of ₹0" ∧
    short_prompt ⟨0, none, 100000, 25000, 25000, 20000⟩
        = short_prompt_of "a monthly profit of ₹0" ∧
    get_short_llm_summary (fun _ => Except.error "DNS failure")
        ⟨0, none, 100000, 25000, 25000, 20000⟩
        = "Scenario resulted in a monthly profit of ₹0." :=
  zero_net_flow_classified_profit ⟨0, none, 100000, 25000, 25000, 20000⟩
    (fun _ => Except.error "DNS failure") rfl (fun _ _ h => Except.noConfusion h)

/-- C10: whenever `runway_months` is present it is strictly positive (and
finite — it is a rational number, and its divisor `|monthly_net_flow|` is
nonzero under the guard of main.py line 52). -/
theorem runway_positive (d : ScenarioInputFull) (r : ℚ)
    (h : (calculate_financial_outcome d).runway_months = some r) : 0 < r := by
  rw [runway_months_eq d] at h
  split_ifs at h with hc
  · obtain ⟨hneg, hpos⟩ := hc
    have hr : (d.initial_budget : ℚ) / |(calculate_financial_outcome d).monthly_net_flow| = r :=
      Option.some.inj h
    rw [← hr]
    have hb : (0 : ℚ) < (d.initial_budget : ℚ) := by exact_mod_cast hpos
    exact div_pos hb (abs_pos.mpr (ne_of_lt hneg))

/-- C10 witness: a concrete loss-making scenario (budget 100, monthly
loss 10) whose runway is present and equals the positive value 10. -/
theorem runway_positive_witness :
    (calculate_financial_outcome ⟨⟨100, 1, 0, 0, 0, 0, 10, 0⟩, 0⟩).runway_months = some 10 ∧
    (0 : ℚ) < 10 :=
  ⟨by norm_num [calculate_financial_outcome],
    runway_positive ⟨⟨100, 1, 0, 0, 0, 0, 10, 0⟩, 0⟩ 10
      (by norm_num [calculate_financial_outcome])⟩

/-- Helper: both branches of the `/stimulate` handler return the state
with `scenario_counter` bumped by one and `report_counter` untouched. -/
theorem stimulate_counters (llm : String → Except String String) (st : AppState)
    (d : ScenarioInput) :
    (stimulate_scenario llm st d).1.scenario_counter = st.scenario_counter + 1 ∧
    (stimulate_scenario llm st d).1.report_counter = st.report_counter := by
  unfold stimulate_scenario
  cases calculate_financial_outcome_run d <;> exact ⟨rfl, rfl⟩

/-- Helper: both branches of the `/export-report` handler return the
state with `report_counter` bumped by one and `scenario_counter`
untouched. -/
theorem export_counters (llm : String → Except String String) (st : AppState)
    (d : ScenarioInput) :
    (export_report llm st d).1.report_counter = st.report_counter + 1 ∧
    (export_report llm st d).1.scenario_counter = st.scenario_counter := by
  unfold export_report
  cases calculate_financial_outcome_run d <;> exact ⟨rfl, rfl⟩

/-- C5 counterexample: the claim asserts that in the `/stimulate` handler
the scenario counter is incremented only after the outcome is computed
and the summary obtained, so that a failing computation leaves it
unchanged.  In the code the increment (main.py line 124) precedes the
computation (line 126): here a call from the initial state fails its
outcome computation (the `average_salary` AttributeError), yet the
counter has moved from 0 to 1. -/
theorem scenario_counter_bumped_on_failed_computation :
    (stimulate_scenario (fun _ => Except.error "503 Service Unavailable") ⟨0, 0⟩
        ⟨100000, 12, 500, 50, 5, 2000, 3000, 0⟩).2
      = Except.error "AttributeError: 'ScenarioInput' object has no attribute 'average_salary'" ∧
    (stimulate_scenario (fun _ => Except.error "503 Service Unavailable") ⟨0, 0⟩
        ⟨100000, 12, 500, 50, 5, 2000, 3000, 0⟩).1.scenario_counter = 1 :=
  ⟨rfl, rfl⟩

/-- C5 amended: each counter is incremented by exactly 1 per call to its
handler — whether or not the call succeeds, since the increment (main.py
lines 124, 138) happens before the outcome computation (lines 126, 140) —
and never decremented: after N calls the counter equals its prior value
plus N. -/
theorem counters_increment_per_call (llm : String → Except String String) (st : AppState)
    (d : ScenarioInput) (ds : List ScenarioInput) :
    (stimulate_scenario llm st d).1.scenario_counter = st.scenario_counter + 1 ∧
    (export_report llm st d).1.report_counter = st.report_counter + 1 ∧
    (run_stimulate llm st ds).scenario_counter = st.scenario_counter + ds.length ∧
    (run_export llm st ds).report_counter = st.report_counter + ds.length := by
  refine ⟨(stimulate_counters llm st d).1, (export_counters llm st d).1, ?_, ?_⟩
  · induction ds generalizing st with
    | nil => rfl
    | cons d0 ds ih =>
        show (run_stimulate llm (stimulate_scenario llm st d0).1 ds).scenario_counter
            = st.scenario_counter + (d0 :: ds).length
        rw [ih, (stimulate_counters llm st d0).1, List.length_cons]
        omega
  · induction ds generalizing st with
    | nil => rfl
    | cons d0 ds ih =>
        show (run_export llm (export_report llm st d0).1 ds).report_counter
            = st.report_counter + (d0 :: ds).length
        rw [ih, (export_counters llm st d0).1, List.length_cons]
        omega

/-- C8: the two handlers are independent on process state — `/stimulate`
leaves `report_counter` unchanged and its response and counter effect are
invariant under arbitrary changes of `report_counter` (it never reads
it), and symmetrically `/export-report` for `scenario_counter`. -/
theorem handlers_independent (llm : String → Except String String) (st : AppState)
    (d : ScenarioInput) (n : Nat) :
    (stimulate_scenario llm st d).1.report_counter = st.report_counter ∧
    (stimulate_scenario llm { st with report_counter := n } d).2
        = (stimulate_scenario llm st d).2 ∧
    (stimulate_scenario llm { st with report_counter := n } d).1.scenario_counter
        = (stimulate_scenario llm st d).1.scenario_counter ∧
    (export_report llm st d).1.scenario_counter = st.scenario_counter ∧
    (export_report llm { st with scenario_counter := n } d).2
        = (export_report llm st d).2 ∧
    (export_report llm { st with scenario_counter := n } d).1.report_counter
        = (export_report llm st d).1.report_counter := by
  unfold stimulate_scenario export_report
  cases calculate_financial_outcome_run d <;> exact ⟨rfl, rfl, rfl, rfl, rfl, rfl⟩
